import Mathlib

/-!
Shallow embedding of `src/api.ts`, the data-access façade of a
scheduling/booking application backed by a remote relational store.

The remote store is modelled as an in-memory record of tables (lists of
rows).  Each API operation becomes a pure Lean function over this state:
reads filter the lists, inserts append, updates map over rows, and thrown
errors become `Except.error` with the source's message string.  Row keys
generated by the backend on insert are passed in explicitly as a
`freshId` argument where the source reads them back.  For the two
operations whose claims concern remote failure behaviour
(`getUserById`, `getCurrentUser`), the outcome of the remote call is a
parameter, so both the not-found and the remote-failure outcomes can be
examined.

JavaScript-specific semantics that the source relies on are embedded
explicitly: `x || d` falsy-default on numbers (`jsFalsyOr`), `Number(s)`
string-to-number conversion with NaN modelled as `none` (`jsNumber`,
restricted to integer-valued strings since all numbers in this module are
integers), `String(n)` (`jsStringOfInt`), truthiness of loosely-typed
setting values (`jsTruthy`), and `.single()` returning a row exactly when
the query matched one row (`singleRow`).
-/

set_option autoImplicit false

namespace Api

/-- Semantics of `.single()` in the remote query API: yields the row when the filtered
result set has exactly one element, and an error (here `none`) when it has
zero or several. -/
def singleRow {α : Type} : List α → Option α
  | [x] => some x
  | _ => none

/-- JavaScript `c || d` for an integer `c`: `0` is falsy, every other
integer is truthy. -/
def jsFalsyOr (c d : Int) : Int :=
  if c = 0 then d else c

/-- All characters are decimal digits and the list is nonempty; the value
of the digit string. -/
def digitsVal? : List Char → Option Nat
  | [] => none
  | cs =>
    cs.foldl
      (fun acc c =>
        acc.bind (fun n => if c.isDigit then some (n * 10 + (c.toNat - 48)) else none))
      (some 0)

/-- JavaScript `Number(s)` on a string, restricted to integer values:
the empty string converts to `0`, an optional minus sign followed by
decimal digits converts to the signed value, and anything else is NaN,
modelled as `none`.  (Fractional and exponent forms never arise in this
module, whose numeric data are integers.) -/
def jsNumber (s : String) : Option Int :=
  match s.toList with
  | [] => some 0
  | '-' :: rest => (digitsVal? rest).map (fun n => -(n : Int))
  | cs => (digitsVal? cs).map (fun n => (n : Int))

/-- JavaScript `String(n)` for an integer. -/
def jsStringOfInt (n : Int) : String :=
  toString n

/-- A value held in the loosely-typed settings table: `saveSettings`
writes raw numbers, booleans and strings. -/
inductive JSVal where
  | vNum (n : Int)
  | vBool (b : Bool)
  | vStr (s : String)
deriving Repr, DecidableEq

/-- JavaScript truthiness of an optional setting value: `undefined`,
`0`, `false` and the empty string are falsy. -/
def jsTruthy : Option JSVal → Bool
  | none => false
  | some (.vNum n) => n != 0
  | some (.vBool b) => b
  | some (.vStr s) => s != ""

/-- JavaScript `Number(v)` on an optional setting value; `none` models
both `undefined` and NaN. -/
def jsNumberOfVal : Option JSVal → Option Int
  | none => none
  | some (.vNum n) => some n
  | some (.vBool b) => some (if b then 1 else 0)
  | some (.vStr s) => jsNumber s

/-- JavaScript `String(v)` on a setting value. -/
def jsStringOfVal : JSVal → String
  | .vNum n => jsStringOfInt n
  | .vBool b => if b then "true" else "false"
  | .vStr s => s

/-- Evaluation of `Number(x) || d`: the default applies when the conversion is NaN or
when it yields the falsy number `0`. -/
def jsNumberOr (v : Option JSVal) (d : Int) : Int :=
  match jsNumberOfVal v with
  | none => d
  | some n => if n = 0 then d else n

/-- Evaluation of `String(x || d)`: the default string applies when the value is
absent or falsy. -/
def jsStringOr (v : Option JSVal) (d : String) : String :=
  match v with
  | none => d
  | some w => if jsTruthy (some w) then jsStringOfVal w else d

/-- The double-quote character (code point 34). -/
def dquote : Char := Char.ofNat 34

/-- Semantics of `.replace(/"/g, '')`: drop every double-quote character. -/
def stripQuotes (s : String) : String :=
  String.mk (s.toList.filter (fun c => c ≠ dquote))

/-! ## Stored rows (snake_case columns, as in the remote schema) -/

/-- A row of the `profiles` table. -/
structure ProfileRow where
  id : String
  email : String
  full_name : String
  role : String
  avatar_url : String
  package_credits : Int
deriving Repr, DecidableEq

/-- A row of the `enrollments` table (the generated key is never read
back by the operations under study, so it is omitted). -/
structure EnrollmentRow where
  session_id : String
  user_id : String
deriving Repr, DecidableEq

/-- A row of the `packages` table. -/
structure PackageRow where
  id : String
  name : String
  credits : Int
  price : Int
  active : Bool
deriving Repr, DecidableEq

/-- A row of the `purchases` ledger as written by `purchasePackage`
(the backend-generated key and timestamp are omitted). -/
structure PurchaseRow where
  user_id : String
  package_id : String
  package_name : String
  amount_paid : Int
  credits_added : Int
deriving Repr, DecidableEq

/-- A row of the `class_types` table, holding the single stored `price`
column. -/
structure ClassRow where
  id : String
  name : String
  description : String
  duration_minutes : Int
  capacity : Int
  price : Int
deriving Repr, DecidableEq

/-- A row of the `availability` table; `day_of_week` is a text column. -/
structure AvailabilityRow where
  id : String
  instructor_id : String
  day_of_week : String
  start_time : String
  end_time : String
deriving Repr, DecidableEq

/-- A row of the key-value `settings` table. -/
structure SettingRow where
  key : String
  value : JSVal
deriving Repr, DecidableEq

/-- The remote store: one list of rows per table touched by the claims. -/
structure Db where
  profiles : List ProfileRow
  enrollments : List EnrollmentRow
  packages : List PackageRow
  purchases : List PurchaseRow
  class_types : List ClassRow
  availability : List AvailabilityRow
  settings : List SettingRow
deriving Repr, DecidableEq

/-! ## Application-facing records (the shapes built by the mappers) -/

/-- The application `User` record as assembled by the profile mappers. -/
structure User where
  id : String
  email : String
  name : String
  role : String
  avatarUrl : String
  packageCredits : Int
deriving Repr, DecidableEq

/-- The application `ClassType` record as assembled by `getClasses`
(and consumed by `createClass` / `updateClass`). -/
structure ClassType where
  id : String
  name : String
  description : String
  durationMinutes : Int
  priceSingle : Int
  pricePackage : Int
  difficulty : String
  capacity : Int
deriving Repr, DecidableEq

/-- The application `Availability` record as read back by
`getAvailability`.  Its `dayOfWeek` is the result of JavaScript
`Number(day_of_week)`: `some n` models the number `n`, `none` models
NaN (a non-numeric stored text). -/
structure Availability where
  id : String
  instructorId : String
  dayOfWeek : Option Int
  startTime : String
  endTime : String
deriving Repr, DecidableEq

/-- The application `Availability` record as supplied to
`createAvailability` by callers; the app always sends a numeric
`dayOfWeek`. -/
structure AvailabilityInput where
  instructorId : String
  dayOfWeek : Int
  startTime : String
  endTime : String
deriving Repr, DecidableEq

/-- The fixed-shape object returned by `getSettings`. -/
structure Settings where
  poolCapacity : Int
  cancellationHours : Int
  maintenanceMode : Bool
  contactEmail : String
deriving Repr, DecidableEq

/-- An error signal distinguishing a single-row not-found outcome from
any other remote failure, for operations whose claims examine the two
separately. -/
inductive SbError where
  | notFound
  | remote (msg : String)
deriving Repr, DecidableEq

/-- The field-name translation `profiles` row → `User` shared by
`getUsers`, `getUserById` and `getCurrentUser`. -/
def profileToUser (p : ProfileRow) : User :=
  { id := p.id
  , email := p.email
  , name := p.full_name
  , role := p.role
  , avatarUrl := p.avatar_url
  , packageCredits := p.package_credits }

/-! ## Operations (one Lean function per source function) -/

/-- Embeds `getUserById(id)`: the source runs a single-row fetch and returns
`undefined` whenever the query reports an error — it never re-throws.
The remote outcome is a parameter: `.error .notFound` is the zero-row
outcome of `.single()`, `.error (.remote msg)` any other failure. -/
def getUserById (res : Except SbError ProfileRow) : Option User :=
  match res with
  | .error _ => none
  | .ok p => some (profileToUser p)

/-- Embeds `createUser(user)`: the source unconditionally throws
`Error("Admin user creation requires backend function")`. -/
def createUser (_user : User) : Except String Unit :=
  .error "Admin user creation requires backend function"

/-- Embeds `deleteUser(id)`: the source only emits `console.warn("Deleting
users requires Admin API")` and returns normally; no row is deleted and
no error is raised. -/
def deleteUser (_id : String) (db : Db) : Except String Db :=
  .ok db

/-- Embeds `getCurrentUser()`: resolve the authenticated identity (here the
optional user id `authUser`), return `null` when absent; otherwise fetch
the profile row (outcome given by `fetchProfile`), returning `null` on
any error and the mapped profile on success. -/
def getCurrentUser (authUser : Option String)
    (fetchProfile : String → Except SbError ProfileRow) : Option User :=
  match authUser with
  | none => none
  | some uid =>
    match fetchProfile uid with
    | .error _ => none
    | .ok p => some (profileToUser p)

/-- Embeds `getClasses()`: map each stored `class_types` row to a `ClassType`;
both `priceSingle` and `pricePackage` are populated from the single
stored `price` column, and `difficulty` is the literal `'Beginner'`. -/
def getClasses (db : Db) : List ClassType :=
  db.class_types.map (fun c =>
    { id := c.id
    , name := c.name
    , description := c.description
    , durationMinutes := c.duration_minutes
    , priceSingle := c.price
    , pricePackage := c.price
    , difficulty := "Beginner"
    , capacity := c.capacity })

/-- Embeds `createClass(cls)`: insert a row with `name`, `description`,
`duration_minutes`, `capacity` (JavaScript `cls.capacity || 10`) and
`price` taken from `priceSingle`; no difficulty or package-price column
is written.  `freshId` is the backend-generated row key. -/
def createClass (cls : ClassType) (freshId : String) (db : Db) : Db :=
  { db with class_types := db.class_types ++
      [{ id := freshId
       , name := cls.name
       , description := cls.description
       , duration_minutes := cls.durationMinutes
       , capacity := jsFalsyOr cls.capacity 10
       , price := cls.priceSingle }] }

/-- Embeds `updateClass(cls)`: update the rows keyed by `cls.id`, setting
`name`, `description`, `duration_minutes` and `price` (from
`priceSingle`); capacity, difficulty and package price are not
written. -/
def updateClass (cls : ClassType) (db : Db) : Db :=
  { db with class_types := db.class_types.map (fun c =>
      if c.id == cls.id then
        { c with
          name := cls.name
          , description := cls.description
          , duration_minutes := cls.durationMinutes
          , price := cls.priceSingle }
      else c) }

/-- The enrollment pre-check filter of `bookSession`:
`.eq('session_id', sessionId).eq('user_id', userId)`. -/
def enrollMatch (sessionId userId : String) (e : EnrollmentRow) : Bool :=
  e.session_id == sessionId && e.user_id == userId

/-- Semantics of the profile-credit write `.update(..).eq('id', userId)`. -/
def setCredits (userId : String) (v : Int) (l : List ProfileRow) : List ProfileRow :=
  l.map (fun p => if p.id == userId then { p with package_credits := v } else p)

/-- Embeds `bookSession(sessionId, userId)`: pre-check for an existing
enrollment via `.single()` (the error of that call is discarded; only
the row's presence matters) and throw `'Already enrolled'` when one row
is found; otherwise insert the enrollment, then read the user's credits
and decrement by one only when the balance is strictly positive (no
write otherwise, also when the profile read yields no single row). -/
def bookSession (sessionId userId : String) (db : Db) : Except String Db :=
  match singleRow (db.enrollments.filter (enrollMatch sessionId userId)) with
  | some _ => .error "Already enrolled"
  | none =>
    let db1 := { db with enrollments := db.enrollments ++
        [{ session_id := sessionId, user_id := userId }] }
    match singleRow (db1.profiles.filter (fun p => p.id == userId)) with
    | some profile =>
      if profile.package_credits > 0 then
        let updated := setCredits userId (profile.package_credits - 1) db1.profiles
        .ok { db1 with profiles := updated }
      else
        .ok db1
    | none => .ok db1

/-- Embeds `updatePackage(pkg)`: update the `packages` row keyed by `pkg.id`
with the given name, credits and price. -/
def updatePackage (pkg : PackageRow) (db : Db) : Db :=
  { db with packages := db.packages.map (fun q =>
      if q.id == pkg.id then
        { q with name := pkg.name, credits := pkg.credits, price := pkg.price }
      else q) }

/-- Embeds `purchasePackage(userId, packageId)`: read the package definition
(throw `'Package not found'` when `.single()` yields no row), append a
purchase ledger row copying the package's name, price and credits, then
read the user's current credits (`profile?.package_credits || 0`) and
write back the sum. -/
def purchasePackage (userId packageId : String) (db : Db) : Except String Db :=
  match singleRow (db.packages.filter (fun q => q.id == packageId)) with
  | none => .error "Package not found"
  | some pkg =>
    let row : PurchaseRow :=
      { user_id := userId
      , package_id := packageId
      , package_name := pkg.name
      , amount_paid := pkg.price
      , credits_added := pkg.credits }
    let db1 := { db with purchases := db.purchases ++ [row] }
    let creditsBefore : Int :=
      match singleRow (db1.profiles.filter (fun p => p.id == userId)) with
      | some profile => jsFalsyOr profile.package_credits 0
      | none => 0
    let updated := setCredits userId (creditsBefore + pkg.credits) db1.profiles
    .ok { db1 with profiles := updated }

/-- Embeds `getAvailability(instructorId)`: filter by instructor and map each
row; the source's object literal names `dayOfWeek` twice
(`parseInt(a.day_of_week)` then `Number(a.day_of_week)`), so the
effective value is the last one, `Number(a.day_of_week)`. -/
def getAvailability (instructorId : String) (db : Db) : List Availability :=
  (db.availability.filter (fun a => a.instructor_id == instructorId)).map
    (fun a =>
      { id := a.id
      , instructorId := a.instructor_id
      , dayOfWeek := jsNumber a.day_of_week
      , startTime := a.start_time
      , endTime := a.end_time })

/-- Embeds `createAvailability(avail)`: insert a row storing
`String(avail.dayOfWeek)` in the text column `day_of_week`.  `freshId`
is the backend-generated row key. -/
def createAvailability (avail : AvailabilityInput) (freshId : String) (db : Db) : Db :=
  { db with availability := db.availability ++
      [{ id := freshId
       , instructor_id := avail.instructorId
       , day_of_week := jsStringOfInt avail.dayOfWeek
       , start_time := avail.startTime
       , end_time := avail.endTime }] }

/-- The key → value object built by `getSettings` from the rows:
`settings[item.key] = item.value` in row order, so a later row with the
same key overwrites an earlier one. -/
def settingsLookup (rows : List SettingRow) (k : String) : Option JSVal :=
  rows.foldl (fun acc item => if item.key == k then some item.value else acc) none

/-- Embeds `getSettings()`: assemble the key-value rows into the fixed-shape
settings object with typed defaults — `Number(x) || 25`,
`Number(x) || 24`, `Boolean(x) || false`, and
`String(x || 'admin@lovableswim.com').replace(/"/g, '')`. -/
def getSettings (rows : List SettingRow) : Settings :=
  { poolCapacity := jsNumberOr (settingsLookup rows "pool_capacity") 25
  , cancellationHours := jsNumberOr (settingsLookup rows "cancellation_hours") 24
  , maintenanceMode := jsTruthy (settingsLookup rows "maintenance_mode") || false
  , contactEmail :=
      stripQuotes (jsStringOr (settingsLookup rows "contact_email") "admin@lovableswim.com") }

/-! ## Observations and helper lemmas -/

/-- Observation: the user's credit balance as seen by a single-row fetch
of the profile keyed by `userId`. -/
def creditsOf (db : Db) (userId : String) : Option Int :=
  (singleRow (db.profiles.filter (fun p => p.id == userId))).map
    (fun p => p.package_credits)

/-- A concrete profile row used to exercise the theorems. -/
def profU1 : ProfileRow :=
  { id := "u1", email := "u1@swim.io", full_name := "Ada", role := "client"
  , avatar_url := "av", package_credits := 2 }

/-- A concrete package row used to exercise the theorems. -/
def pkgP1 : PackageRow :=
  { id := "p1", name := "Starter", credits := 5, price := 100, active := true }

/-- A concrete class row used to exercise the theorems. -/
def classRowC1 : ClassRow :=
  { id := "c1", name := "Swim", description := "intro", duration_minutes := 45
  , capacity := 8, price := 30 }

/-- A concrete store used to exercise the theorems. -/
def exampleDb : Db :=
  { profiles := [profU1], enrollments := [], packages := [pkgP1]
  , purchases := [], class_types := [classRowC1], availability := []
  , settings := [] }

/-- The class record that `getClasses` builds from `classRowC1`. -/
def classTypeEx : ClassType :=
  { id := "c1", name := "Swim", description := "intro", durationMinutes := 45
  , priceSingle := 30, pricePackage := 30, difficulty := "Beginner"
  , capacity := 8 }

/-- A profile fetch that always fails with a remote (non-not-found)
error. -/
def fetchFail : String → Except SbError ProfileRow :=
  fun _ => .error (.remote "timeout")

/-- A concrete availability input used to exercise the theorems. -/
def availEx : AvailabilityInput :=
  { instructorId := "i1", dayOfWeek := 4, startTime := "09:00", endTime := "10:00" }

theorem singleRow_nil {α : Type} : singleRow ([] : List α) = none := rfl

theorem singleRow_singleton {α : Type} (x : α) : singleRow [x] = some x := rfl

theorem singleRow_eq_some {α : Type} {l : List α} {x : α} :
    singleRow l = some x ↔ l = [x] := by
  match l with
  | [] => simp [singleRow]
  | [y] => simp [singleRow]
  | a :: b :: t => simp [singleRow]

theorem singleRow_mem {α : Type} {l : List α} {x : α}
    (h : singleRow l = some x) : x ∈ l := by
  rw [singleRow_eq_some] at h
  simp [h]

theorem jsFalsyOr_zero (c : Int) : jsFalsyOr c 0 = c := by
  unfold jsFalsyOr
  split <;> omega

theorem filter_setCredits (userId : String) (v : Int) (l : List ProfileRow) :
    (setCredits userId v l).filter (fun p => p.id == userId) =
      (l.filter (fun p => p.id == userId)).map
        (fun p => { p with package_credits := v }) := by
  induction l with
  | nil => rfl
  | cons p l ih =>
    simp only [setCredits, List.map_cons] at ih ⊢
    by_cases h : p.id = userId
    · simp [List.filter_cons, h]
      simpa using ih
    · simp [List.filter_cons, h]
      simpa using ih

theorem mem_setCredits {q : ProfileRow} {userId : String} {v : Int}
    {l : List ProfileRow} (h : q ∈ setCredits userId v l) :
    q ∈ l ∨ ∃ r ∈ l, q = { r with package_credits := v } := by
  unfold setCredits at h
  rcases List.mem_map.mp h with ⟨r, hr, hq⟩
  by_cases hid : r.id = userId
  · right
    refine ⟨r, hr, ?_⟩
    rw [if_pos (by simpa using hid)] at hq
    exact hq.symm
  · left
    rw [if_neg (by simpa using hid)] at hq
    exact hq ▸ hr

/-- Unfolded form of `bookSession`, flattening the intermediate state of
the enrollment insert into a single record update. -/
theorem bookSession_cases (sessionId userId : String) (db : Db) :
    bookSession sessionId userId db =
      match singleRow (db.enrollments.filter (enrollMatch sessionId userId)) with
      | some _ => .error "Already enrolled"
      | none =>
        match singleRow (db.profiles.filter (fun p => p.id == userId)) with
        | some profile =>
          if profile.package_credits > 0 then
            .ok { db with
              enrollments := db.enrollments ++
                [{ session_id := sessionId, user_id := userId }]
              , profiles :=
                  setCredits userId (profile.package_credits - 1) db.profiles }
          else
            .ok { db with enrollments := db.enrollments ++
              [{ session_id := sessionId, user_id := userId }] }
        | none =>
          .ok { db with enrollments := db.enrollments ++
            [{ session_id := sessionId, user_id := userId }] } := rfl

/-- Unfolded form of `purchasePackage`, flattening the intermediate state
of the ledger insert into a single record update. -/
theorem purchasePackage_cases (userId packageId : String) (db : Db) :
    purchasePackage userId packageId db =
      match singleRow (db.packages.filter (fun q => q.id == packageId)) with
      | none => .error "Package not found"
      | some pkg =>
        .ok { db with
          purchases := db.purchases ++
            [{ user_id := userId, package_id := packageId
             , package_name := pkg.name, amount_paid := pkg.price
             , credits_added := pkg.credits }]
          , profiles :=
              setCredits userId
                ((match singleRow (db.profiles.filter (fun p => p.id == userId)) with
                  | some profile => jsFalsyOr profile.package_credits 0
                  | none => 0) + pkg.credits)
                db.profiles } := rfl

/-- Round trip of a day-of-week digit through JavaScript
`String` / `Number`. -/
theorem jsNumber_roundtrip_digit (n : Int) (h0 : 0 ≤ n) (h6 : n ≤ 6) :
    jsNumber (jsStringOfInt n) = some n := by
  interval_cases n <;> decide

/-! ## Claim theorems -/

/-- C3 (counterexample): `deleteUser` returns successfully — the source
only logs a warning — so the claim that neither administrative operation
ever returns as if it had succeeded is false at this input. -/
theorem deleteUser_silently_succeeds :
    deleteUser "u1" exampleDb = .ok exampleDb := rfl

/-- C3 (amended): `createUser` always fails loudly with the explicit
elevated-capability signal, while `deleteUser` always returns as if it had
succeeded, leaving the store untouched. -/
theorem adminOps_split_behavior (u : User) (id : String) (db : Db) :
    createUser u = .error "Admin user creation requires backend function" ∧
    deleteUser id db = .ok db :=
  ⟨rfl, rfl⟩

/-- C5 (counterexample): a remote failure other than not-found is
converted by `getUserById` into the absent result rather than being
propagated to the caller. -/
theorem getUserById_swallows_remote_failure :
    getUserById (.error (.remote "connection reset")) = none := rfl

/-- C5 (amended): `getUserById` returns the absent result on every error
of the single-row fetch — not-found and any other remote failure alike —
and maps the row on success; no failure is ever propagated. -/
theorem getUserById_absent_on_any_error (e : SbError) (p : ProfileRow) :
    getUserById (.error e) = none ∧
    getUserById (.ok p) = some (profileToUser p) :=
  ⟨rfl, rfl⟩

/-- C6: with no rows in the settings table, `getSettings` returns exactly
the documented defaults — pool capacity 25, cancellation window 24 hours,
maintenance mode off, and the default contact email, which contains no
double-quote character. -/
theorem getSettings_empty_defaults :
    getSettings [] =
      { poolCapacity := 25, cancellationHours := 24, maintenanceMode := false
      , contactEmail := "admin@lovableswim.com" } ∧
    dquote ∉ (getSettings []).contactEmail.toList := by
  decide

/-- C7: every class returned by `getClasses` has equal `priceSingle` and
`pricePackage`, both populated from the single stored price column. -/
theorem getClasses_price_duplicated (db : Db) (c : ClassType)
    (h : c ∈ getClasses db) : c.priceSingle = c.pricePackage := by
  rcases List.mem_map.mp h with ⟨row, _, rfl⟩
  rfl

/-- Witness for C7 at a concrete store. -/
theorem getClasses_price_duplicated_witness :
    classTypeEx ∈ getClasses exampleDb ∧
    classTypeEx.priceSingle = classTypeEx.pricePackage :=
  ⟨by decide, getClasses_price_duplicated exampleDb classTypeEx (by decide)⟩

/-- C9: `getCurrentUser` returns the absent result when there is no
authenticated identity and when the profile fetch fails for any reason,
and maps the profile row on success. -/
theorem getCurrentUser_absent_on_failure
    (fetchProfile : String → Except SbError ProfileRow) :
    getCurrentUser none fetchProfile = none ∧
    (∀ uid e, fetchProfile uid = .error e →
      getCurrentUser (some uid) fetchProfile = none) ∧
    (∀ uid p, fetchProfile uid = .ok p →
      getCurrentUser (some uid) fetchProfile = some (profileToUser p)) := by
  refine ⟨rfl, ?_, ?_⟩
  · intro uid e h
    simp [getCurrentUser, h]
  · intro uid p h
    simp [getCurrentUser, h]

/-- Witness for C9 with a profile fetch that fails remotely. -/
theorem getCurrentUser_absent_witness :
    fetchFail "u1" = .error (.remote "timeout") ∧
    getCurrentUser (some "u1") fetchFail = none :=
  ⟨rfl, (getCurrentUser_absent_on_failure fetchFail).2.1 "u1" (.remote "timeout") rfl⟩

/-- C10: every class read back by `getClasses` carries the constant
difficulty `'Beginner'`, and both `createClass` and `updateClass` write
stores that are independent of the caller's difficulty and package-price
fields — those inputs are discarded. -/
theorem class_difficulty_discarded (db : Db) :
    (∀ c ∈ getClasses db, c.difficulty = "Beginner") ∧
    (∀ (cls : ClassType) (d : String) (pp : Int) (freshId : String),
      createClass { cls with difficulty := d, pricePackage := pp } freshId db =
        createClass cls freshId db) ∧
    (∀ (cls : ClassType) (d : String) (pp : Int),
      updateClass { cls with difficulty := d, pricePackage := pp } db =
        updateClass cls db) := by
  refine ⟨?_, ?_, ?_⟩
  · intro c hc
    rcases List.mem_map.mp hc with ⟨row, _, rfl⟩
    rfl
  · intro cls d pp freshId
    rfl
  · intro cls d pp
    rfl

/-- Witness for C10 at a concrete store. -/
theorem class_difficulty_discarded_witness :
    classTypeEx ∈ getClasses exampleDb ∧ classTypeEx.difficulty = "Beginner" :=
  ⟨by decide, (class_difficulty_discarded exampleDb).1 classTypeEx (by decide)⟩

/-- C4: writing an availability record whose dayOfWeek is an integer in
[0,6] with `createAvailability` (which stores it as text) and reading the
instructor's availability back with `getAvailability` yields the same
integer dayOfWeek, appended after the previously visible records. -/
theorem availability_day_roundtrip (avail : AvailabilityInput)
    (freshId : String) (db : Db)
    (h0 : 0 ≤ avail.dayOfWeek) (h6 : avail.dayOfWeek ≤ 6) :
    getAvailability avail.instructorId (createAvailability avail freshId db) =
      getAvailability avail.instructorId db ++
        [{ id := freshId
         , instructorId := avail.instructorId
         , dayOfWeek := some avail.dayOfWeek
         , startTime := avail.startTime
         , endTime := avail.endTime }] := by
  unfold getAvailability createAvailability
  simp [List.filter_append, jsNumber_roundtrip_digit avail.dayOfWeek h0 h6]

/-- Witness for C4 at a concrete availability record and store. -/
theorem availability_day_roundtrip_witness :
    (0 ≤ availEx.dayOfWeek ∧ availEx.dayOfWeek ≤ 6) ∧
    getAvailability availEx.instructorId
        (createAvailability availEx "a1" exampleDb) =
      getAvailability availEx.instructorId exampleDb ++
        [{ id := "a1"
         , instructorId := availEx.instructorId
         , dayOfWeek := some availEx.dayOfWeek
         , startTime := availEx.startTime
         , endTime := availEx.endTime }] :=
  ⟨by decide, availability_day_roundtrip availEx "a1" exampleDb (by decide) (by decide)⟩

/-- C2: when the package and the user's profile each resolve to a single
row, `purchasePackage` succeeds, the resulting balance equals the balance
before plus the package's credits, the purchases ledger gains exactly one
appended row copying the package's name and price (and credit amount) as
they are at purchase time, and a later `updatePackage` leaves that ledger
row untouched (the copy is a snapshot, not a live reference). -/
theorem purchasePackage_adds_credits_and_ledger (userId packageId : String)
    (db : Db) (pkg : PackageRow) (p : ProfileRow)
    (hpkg : singleRow (db.packages.filter (fun q => q.id == packageId)) = some pkg)
    (hprof : singleRow (db.profiles.filter (fun q => q.id == userId)) = some p) :
    ∃ db1, purchasePackage userId packageId db = .ok db1 ∧
      creditsOf db1 userId = some (p.package_credits + pkg.credits) ∧
      db1.purchases = db.purchases ++
        [{ user_id := userId, package_id := packageId, package_name := pkg.name
         , amount_paid := pkg.price, credits_added := pkg.credits }] ∧
      (∀ pkg2 : PackageRow, (updatePackage pkg2 db1).purchases = db1.purchases) := by
  have hl : db.profiles.filter (fun q => q.id == userId) = [p] :=
    singleRow_eq_some.mp hprof
  refine ⟨{ db with
      purchases := db.purchases ++
        [{ user_id := userId, package_id := packageId, package_name := pkg.name
         , amount_paid := pkg.price, credits_added := pkg.credits }]
      , profiles := setCredits userId (p.package_credits + pkg.credits) db.profiles }
    , ?_, ?_, rfl, fun pkg2 => rfl⟩
  · rw [purchasePackage_cases, hpkg, hprof]
    simp [jsFalsyOr_zero]
  · simp [creditsOf, filter_setCredits, hl, singleRow_singleton]

/-- Witness for C2 at a concrete store, package and profile. -/
theorem purchasePackage_witness :
    (singleRow (exampleDb.packages.filter (fun q => q.id == "p1")) = some pkgP1 ∧
      singleRow (exampleDb.profiles.filter (fun q => q.id == "u1")) = some profU1) ∧
    (∃ db1, purchasePackage "u1" "p1" exampleDb = .ok db1 ∧
      creditsOf db1 "u1" = some (profU1.package_credits + pkgP1.credits) ∧
      db1.purchases = exampleDb.purchases ++
        [{ user_id := "u1", package_id := "p1", package_name := pkgP1.name
         , amount_paid := pkgP1.price, credits_added := pkgP1.credits }] ∧
      (∀ pkg2 : PackageRow, (updatePackage pkg2 db1).purchases = db1.purchases)) :=
  ⟨⟨by decide, by decide⟩,
    purchasePackage_adds_credits_and_ledger "u1" "p1" exampleDb pkgP1 profU1
      (by decide) (by decide)⟩

/-- C1: starting from a store with no enrollment for the (user, session)
pair, the first `bookSession` succeeds, the second one in sequence fails
with the distinct 'Already enrolled' signal (writing nothing), and across
the successful first call the user's credit balance is decremented at
most once — it is either unchanged or lower by exactly one. -/
theorem bookSession_twice_second_fails (sessionId userId : String) (db : Db)
    (h0 : db.enrollments.filter (enrollMatch sessionId userId) = []) :
    ∃ db1, bookSession sessionId userId db = .ok db1 ∧
      bookSession sessionId userId db1 = .error "Already enrolled" ∧
      (creditsOf db1 userId = creditsOf db userId ∨
        creditsOf db1 userId = (creditsOf db userId).map (fun c => c - 1)) := by
  have hmatch :
      enrollMatch sessionId userId
        { session_id := sessionId, user_id := userId } = true := by
    simp [enrollMatch]
  have hfilter :
      (db.enrollments ++
          ([{ session_id := sessionId, user_id := userId }] : List EnrollmentRow)).filter
          (enrollMatch sessionId userId) =
        ([{ session_id := sessionId, user_id := userId }] : List EnrollmentRow) := by
    rw [List.filter_append, h0]
    simp [hmatch]
  rcases hp : singleRow (db.profiles.filter (fun p => p.id == userId)) with _ | profile
  · refine ⟨{ db with enrollments := db.enrollments ++
        [{ session_id := sessionId, user_id := userId }] }, ?_, ?_, Or.inl rfl⟩
    · rw [bookSession_cases, h0, hp]
      rfl
    · rw [bookSession_cases]
      simp only [hfilter, singleRow_singleton]
  · by_cases hc : profile.package_credits > 0
    · have hl : db.profiles.filter (fun p => p.id == userId) = [profile] :=
        singleRow_eq_some.mp hp
      refine ⟨{ db with
          enrollments := db.enrollments ++
            [{ session_id := sessionId, user_id := userId }]
          , profiles :=
              setCredits userId (profile.package_credits - 1) db.profiles }
        , ?_, ?_, Or.inr ?_⟩
      · rw [bookSession_cases, h0, hp]
        simp only [if_pos hc]
        rfl
      · rw [bookSession_cases]
        simp only [hfilter, singleRow_singleton]
      · simp [creditsOf, filter_setCredits, hl, hp, singleRow_singleton]
    · refine ⟨{ db with enrollments := db.enrollments ++
          [{ session_id := sessionId, user_id := userId }] }, ?_, ?_, Or.inl rfl⟩
      · rw [bookSession_cases, h0, hp]
        simp only [if_neg hc]
        rfl
      · rw [bookSession_cases]
        simp only [hfilter, singleRow_singleton]

/-- Witness for C1 at a concrete store with no prior enrollment. -/
theorem bookSession_twice_witness :
    exampleDb.enrollments.filter (enrollMatch "s1" "u1") = [] ∧
    (∃ db1, bookSession "s1" "u1" exampleDb = .ok db1 ∧
      bookSession "s1" "u1" db1 = .error "Already enrolled" ∧
      (creditsOf db1 "u1" = creditsOf exampleDb "u1" ∨
        creditsOf db1 "u1" = (creditsOf exampleDb "u1").map (fun c => c - 1))) :=
  ⟨by decide, bookSession_twice_second_fails "s1" "u1" exampleDb (by decide)⟩

/-- C8: from a store whose profile balances are all non-negative and
whose packages all carry non-negative credit amounts, a successful
`bookSession` or `purchasePackage` leaves every profile balance
non-negative; moreover `bookSession` from a zero balance leaves the
balance unchanged — the decrement happens only when the balance is
strictly positive. -/
theorem credits_never_negative (db : Db) (sessionId userId packageId : String)
    (hprof : ∀ p ∈ db.profiles, 0 ≤ p.package_credits)
    (hpkg : ∀ q ∈ db.packages, 0 ≤ q.credits) :
    (∀ db1, bookSession sessionId userId db = .ok db1 →
      ∀ p ∈ db1.profiles, 0 ≤ p.package_credits) ∧
    (∀ db1, purchasePackage userId packageId db = .ok db1 →
      ∀ p ∈ db1.profiles, 0 ≤ p.package_credits) ∧
    (creditsOf db userId = some 0 →
      ∀ db1, bookSession sessionId userId db = .ok db1 →
        creditsOf db1 userId = some 0) := by
  refine ⟨?_, ?_, ?_⟩
  · intro db1 hb p hp
    rw [bookSession_cases] at hb
    split at hb
    · simp at hb
    · split at hb
      · rename_i profile heq
        split at hb
        · rename_i hcpos
          simp only [Except.ok.injEq] at hb
          subst hb
          rcases mem_setCredits hp with hmem | ⟨r, hr, rfl⟩
          · exact hprof p hmem
          · show 0 ≤ profile.package_credits - 1
            omega
        · simp only [Except.ok.injEq] at hb
          subst hb
          exact hprof p hp
      · simp only [Except.ok.injEq] at hb
        subst hb
        exact hprof p hp
  · intro db1 hb p hp
    rw [purchasePackage_cases] at hb
    split at hb
    · simp at hb
    · rename_i pkg heq
      simp only [Except.ok.injEq] at hb
      subst hb
      rcases mem_setCredits hp with hmem | ⟨r, hr, rfl⟩
      · exact hprof p hmem
      · have hpc : 0 ≤ pkg.credits :=
          hpkg pkg (List.mem_of_mem_filter (singleRow_mem heq))
        show 0 ≤
          (match singleRow (db.profiles.filter (fun q => q.id == userId)) with
            | some profile => jsFalsyOr profile.package_credits 0
            | none => 0) + pkg.credits
        rcases hq : singleRow (db.profiles.filter (fun q => q.id == userId))
          with _ | profile
        · rw [hq]
          simpa using hpc
        · rw [hq]
          have hpp : 0 ≤ profile.package_credits :=
            hprof profile (List.mem_of_mem_filter (singleRow_mem hq))
          simp only [jsFalsyOr_zero]
          omega
  · intro h0 db1 hb
    rw [bookSession_cases] at hb
    split at hb
    · simp at hb
    · split at hb
      · rename_i profile heq
        split at hb
        · rename_i hcpos
          exfalso
          unfold creditsOf at h0
          rw [heq] at h0
          simp at h0
          omega
        · simp only [Except.ok.injEq] at hb
          subst hb
          exact h0
      · simp only [Except.ok.injEq] at hb
        subst hb
        exact h0

/-- Witness for C8 at a concrete store with non-negative balances. -/
theorem credits_never_negative_witness :
    ((∀ p ∈ exampleDb.profiles, 0 ≤ p.package_credits) ∧
      (∀ q ∈ exampleDb.packages, 0 ≤ q.credits)) ∧
    (∀ db1, bookSession "s1" "u1" exampleDb = .ok db1 →
      ∀ p ∈ db1.profiles, 0 ≤ p.package_credits) :=
  ⟨⟨by decide, by decide⟩,
    (credits_never_negative exampleDb "s1" "u1" "p1" (by decide) (by decide)).1⟩

end Api
